import Mathlib

/-!
Shallow embedding of the segmenter backend's trimap-and-alpha-matting pipeline
(`backend/app/services/trimap.py`, `classical_matting.py`, `vitmatte.py`,
`sam2.py`, and the dispatch in `api/routes.py`).

Rasters are modelled as dimensioned grids of exact values: `Nat` for 8-bit
channels, `ℚ` for the float rasters (numpy float64 arithmetic in the pipeline
is modelled with exact rationals; the quantities the claims touch stay far
from double-precision rounding boundaries).  External collaborators (PIL
decode, the pymatting solvers, the ViTMatte network, the SAM2 predictor, PNG
encoding) are passed in as function parameters with their documented shape
contracts, exactly as the spec treats them.  OpenCV primitives that the
pipeline calls (`getStructuringElement`, `erode`, `dilate`, `resize`) are
embedded following OpenCV's documented semantics, including the assertion
failures on empty kernels and empty sizes.
-/

set_option allowUnsafeReducibility true

attribute [semireducible] Rat.mul Rat.add Rat.sub Rat.div Rat.inv Rat.neg

/-- Single-channel 8-bit raster (numpy `uint8` array of shape `(h, w)`).
`px` is total; pixels outside `[0,h) × [0,w)` are junk and never observed. -/
structure Img where
  h : Nat
  w : Nat
  px : Nat → Nat → Nat

/-- Three-channel 8-bit raster (numpy array of shape `(h, w, 3)`). -/
structure Img3 where
  h : Nat
  w : Nat
  px : Nat → Nat → Nat × Nat × Nat

/-- Single-channel float raster (numpy `float64` array, values modelled in ℚ). -/
structure QImg where
  h : Nat
  w : Nat
  px : Nat → Nat → ℚ

/-- Three-channel float raster. -/
structure QImg3 where
  h : Nat
  w : Nat
  px : Nat → Nat → ℚ × ℚ × ℚ

/-- RGBA float raster: `np.dstack((foreground_rgb, alpha))` in
`classical_matting.py` line 124. -/
structure Layer where
  h : Nat
  w : Nat
  rgb : Nat → Nat → ℚ × ℚ × ℚ
  alpha : Nat → Nat → ℚ

instance : Inhabited Img := ⟨⟨0, 0, fun _ _ => 0⟩⟩
instance : Inhabited Img3 := ⟨⟨0, 0, fun _ _ => (0, 0, 0)⟩⟩
instance : Inhabited QImg := ⟨⟨0, 0, fun _ _ => 0⟩⟩

/-- Python's `round(x, 3)` rounds half to even; helper for the scaled value. -/
def roundHalfEven (q : ℚ) : Int :=
  let f := Rat.floor q
  let r := q - (f : ℚ)
  if r < Rat.divInt 1 2 then f
  else if Rat.divInt 1 2 < r then f + 1
  else if f % 2 = 0 then f else f + 1

/-- Models `round(processing_time, 3)` (seconds to 3 decimal places). -/
def roundQ3 (q : ℚ) : ℚ := Rat.divInt (roundHalfEven (q * 1000)) 1000

/-- Line 28 of `trimap.py`: `mask = (mask > 127).astype(np.uint8) * 255`. -/
def binarize (mask : Img) : Img :=
  ⟨mask.h, mask.w, fun y x => if 127 < mask.px y x then 255 else 0⟩

/-- Bounds-checked sample with border value `b` (models OpenCV's constant
border: `+inf` ⇒ 255 for `erode`, `-inf` ⇒ 0 for `dilate` on `uint8`). -/
def sampleB (m : Img) (b : Nat) (y x : Int) : Nat :=
  if 0 ≤ y ∧ y < (m.h : Int) ∧ 0 ≤ x ∧ x < (m.w : Int) then m.px y.toNat x.toNat else b

/-- Horizontal half-width of OpenCV's `MORPH_ELLIPSE` row at vertical offset
with `m = r*r - dy*dy`: nearest integer to `c * sqrt(m) / r` (OpenCV computes
`saturate_cast<int>(c*std::sqrt((r*r - dy*dy)*inv_r2))` in doubles; the
integer-sqrt rounding here can differ from OpenCV's only at exact rounding
boundaries, and all theorems below depend only on the anchor's membership). -/
def ellipseDx (r c m : Nat) : Nat :=
  if r = 0 then 0 else (Nat.sqrt (4 * c * c * m) + r) / (2 * r)

/-- Membership of position `(i, j)` in OpenCV's `MORPH_ELLIPSE` kernel of size
`(k, k)` (anchor at `(k/2, k/2)`). -/
def inEllipseKernel (k i j : Nat) : Bool :=
  let r := k / 2
  let c := k / 2
  let dy := (i : Int) - (r : Int)
  if dy.natAbs ≤ r then
    let dx := ellipseDx r c (r * r - dy.natAbs * dy.natAbs)
    decide (c - dx ≤ j) && decide (j < min (c + dx + 1) k)
  else false

/-- The `MORPH_ELLIPSE` structuring element of size `(k, k)` as the list of
offsets from the anchor `(k/2, k/2)`. -/
def ellipseKernel (k : Nat) : List (Int × Int) :=
  (List.range k).flatMap fun i =>
    (List.range k).filterMap fun j =>
      if inEllipseKernel k i j then
        some ((i : Int) - ((k / 2 : Nat) : Int), (j : Int) - ((k / 2 : Nat) : Int))
      else none

/-- Models `cv2.getStructuringElement(cv2.MORPH_ELLIPSE, (k, k))`.  For
`k = 0` OpenCV's `normalizeAnchor` assertion
`anchor.inside(Rect(0, 0, ksize.width, ksize.height))` fails (the default
anchor `(0, 0)` is not inside an empty rect), so the call raises. -/
def getStructuringElement (k : Nat) : Option (List (Int × Int)) :=
  if k = 0 then none else some (ellipseKernel k)

/-- Models `cv2.erode(mask, kernel, iterations=1)`: per-pixel minimum over the
kernel's offsets, out-of-bounds samples taking the neutral border 255. -/
def erodeImg (K : List (Int × Int)) (m : Img) : Img :=
  ⟨m.h, m.w, fun y x =>
    (K.map fun o => sampleB m 255 ((y : Int) + o.1) ((x : Int) + o.2)).foldr min 255⟩

/-- Models `cv2.dilate(mask, kernel, iterations=1)`: per-pixel maximum over the
reflected kernel, out-of-bounds samples taking the neutral border 0. -/
def dilateImg (K : List (Int × Int)) (m : Img) : Img :=
  ⟨m.h, m.w, fun y x =>
    (K.map fun o => sampleB m 0 ((y : Int) - o.1) ((x : Int) - o.2)).foldr max 0⟩

/-- Final value of one trimap pixel given the dilated (`bg`) and eroded (`fg`)
values, mirroring the assignment sequence of `trimap.py` lines 43–46: the
array starts at 0, `trimap[background == 0] = 0`,
`trimap[foreground == 255] = 255`, and
`trimap[(background == 255) & (foreground == 0)] = 128` — the three index sets
are pairwise disjoint on the actual (binary) erode/dilate outputs, so the
sequential writes reduce to this case split. -/
def trimapPx (bg fg : Nat) : Nat :=
  if fg = 255 then 255 else if bg = 255 ∧ fg = 0 then 128 else 0

namespace TrimapGenerationService

/-- Models `TrimapGenerationService.create_trimap` (`trimap.py` lines 13–48).
`none` models the cv2 exception when a kernel size is 0. -/
def create_trimap (mask : Img) (erosion_kernel_size dilation_kernel_size : Nat) :
    Option Img :=
  let bin := binarize mask
  match getStructuringElement erosion_kernel_size,
        getStructuringElement dilation_kernel_size with
  | some erosion_kernel, some dilation_kernel =>
    let foreground := erodeImg erosion_kernel bin
    let background := dilateImg dilation_kernel bin
    some ⟨mask.h, mask.w, fun y x => trimapPx (background.px y x) (foreground.px y x)⟩
  | _, _ => none

end TrimapGenerationService

/-- Clamp an integer index into `[0, n-1]` (replicate-border sampling used by
bilinear interpolation at the image edges). -/
def clampIdx (n : Nat) (i : Int) : Nat := (max 0 (min i ((n : Int) - 1))).toNat

/-- Models `cv2.resize(..., interpolation=cv2.INTER_NEAREST)` to destination
size `(dW, dH)`: source pixel `floor(dst * src/dst_scale)`, clamped in range.
`none` models the cv2 assertion on an empty source or destination size. -/
def cvResizeNearest (src : Img) (dW dH : Nat) : Option Img :=
  if src.h = 0 ∨ src.w = 0 ∨ dH = 0 ∨ dW = 0 then none
  else some ⟨dH, dW, fun y x =>
    src.px (min (y * src.h / dH) (src.h - 1)) (min (x * src.w / dW) (src.w - 1))⟩

/-- Centre-aligned source coordinate for destination index `i`:
`(i + 0.5) * s/d - 0.5` (OpenCV's INTER_LINEAR convention). -/
def srcCoord (s d : Nat) (i : Nat) : ℚ :=
  ((i : ℚ) + Rat.divInt 1 2) * (s : ℚ) / (d : ℚ) - Rat.divInt 1 2

/-- Bilinear interpolation of a sampled channel at fractional position
`(fy, fx)`, with replicate borders. -/
def bilinParam (get : Nat → Nat → ℚ) (h w : Nat) (fy fx : ℚ) : ℚ :=
  let y0 := Rat.floor fy
  let x0 := Rat.floor fx
  let ty := fy - (y0 : ℚ)
  let tx := fx - (x0 : ℚ)
  let v00 := get (clampIdx h y0) (clampIdx w x0)
  let v01 := get (clampIdx h y0) (clampIdx w (x0 + 1))
  let v10 := get (clampIdx h (y0 + 1)) (clampIdx w x0)
  let v11 := get (clampIdx h (y0 + 1)) (clampIdx w (x0 + 1))
  (1 - ty) * ((1 - tx) * v00 + tx * v01) + ty * ((1 - tx) * v10 + tx * v11)

/-- Models `cv2.resize(..., interpolation=cv2.INTER_LINEAR)` on a `uint8`
single-channel raster (bilinear combination, then `saturate_cast<uchar>`
rounding; OpenCV's fixed-point coefficient quantisation is modelled by exact
rational arithmetic — no claim below depends on the low-order rounding).
`none` models the cv2 assertion on an empty source or destination size. -/
def cvResizeLinear (src : Img) (dW dH : Nat) : Option Img :=
  if src.h = 0 ∨ src.w = 0 ∨ dH = 0 ∨ dW = 0 then none
  else some ⟨dH, dW, fun y x =>
    (roundHalfEven (bilinParam (fun a b => (src.px a b : ℚ)) src.h src.w
      (srcCoord src.h dH y) (srcCoord src.w dW x))).toNat⟩

/-- Models `cv2.resize(..., interpolation=cv2.INTER_LINEAR)` on a 3-channel
raster, channelwise. -/
def cvResizeLinear3 (src : Img3) (dW dH : Nat) : Option Img3 :=
  if src.h = 0 ∨ src.w = 0 ∨ dH = 0 ∨ dW = 0 then none
  else some ⟨dH, dW, fun y x =>
    ((roundHalfEven (bilinParam (fun a b => ((src.px a b).1 : ℚ)) src.h src.w
        (srcCoord src.h dH y) (srcCoord src.w dW x))).toNat,
     (roundHalfEven (bilinParam (fun a b => ((src.px a b).2.1 : ℚ)) src.h src.w
        (srcCoord src.h dH y) (srcCoord src.w dW x))).toNat,
     (roundHalfEven (bilinParam (fun a b => ((src.px a b).2.2 : ℚ)) src.h src.w
        (srcCoord src.h dH y) (srcCoord src.w dW x))).toNat)⟩

namespace TrimapGenerationService

/-- Models `TrimapGenerationService.resize_image` (`trimap.py` lines 50–74).
Python's `int(w * max_size / h)` on these magnitudes equals Nat floor
division (the float quotient of products below 2^24 is within 2^-29 of the
exact value, so truncation agrees with exact floor).  Note the source applies
no rounding-to-nearest and no lower bound of 1: a computed dimension of 0
makes `cv2.resize` raise, modelled by `none`. -/
def resize_image (image : Img3) (max_size : Nat) : Option (Img3 × (Nat × Nat)) :=
  let h := image.h
  let w := image.w
  if max h w ≤ max_size then some (image, (h, w))
  else
    let nh := if w < h then max_size else h * max_size / w
    let nw := if w < h then w * max_size / h else max_size
    (cvResizeLinear3 image nw nh).map fun r => (r, (h, w))

end TrimapGenerationService

/-- Error taxonomy of the pipeline (spec §7).  `invalidAlgorithm` models the
`ValueError("Invalid algorithm: ...")` of `classical_matting.py` line 89,
`decodeError` a `PIL.Image.open` failure, `cvError` a cv2 assertion failure
(empty resize size, zero kernel size), `shapeMismatch` the explicit check of
`_apply_matting_algorithm`, `mattingFailure` the wrapped solver failure. -/
inductive MattingError where
  | invalidAlgorithm
  | decodeError
  | cvError
  | shapeMismatch
  | mattingFailure
  deriving DecidableEq, Repr

/-- Echoed parameter set of the result bundle.  `algorithm` is `none` for the
ViTMatte service, whose `parameters` dict has no `algorithm` key. -/
structure Params where
  erosion_kernel_size : Nat
  dilation_kernel_size : Nat
  max_size : Nat
  algorithm : Option String
  deriving DecidableEq, Repr

/-- Result bundle returned by `generate_matte` (both services).  Encoding to
base64 PNG is the excluded transport layer; the bundle keeps the rasters that
are encoded.  `foreground` and `algorithm` are `Option` because the ViTMatte
service's dict has neither key. -/
structure ResultBundle where
  alpha_matte : Img
  trimap : Img
  original_image : Img3
  foreground : Option Layer
  processing_time : ℚ
  image_size : Nat × Nat
  algorithm : Option String
  parameters : Params

/-- External pymatting collaborators of `classical_matting.py`: the four alpha
solvers (`estimate_alpha_cf/knn/lbdm/lkm`) and the foreground solver
(`estimate_foreground_ml`), treated as opaque pure functions per spec §6. -/
structure Solvers where
  cf : QImg3 → QImg → QImg
  knn : QImg3 → QImg → QImg
  lbdm : QImg3 → QImg → QImg
  lkm : QImg3 → QImg → QImg
  fgml : QImg3 → QImg → QImg3

/-- Spec §4.3 shape contract: each alpha solver returns an alpha field with
the trimap's spatial shape. -/
def Solvers.shapeOk (S : Solvers) : Prop :=
  ∀ i t, ((S.cf i t).h = t.h ∧ (S.cf i t).w = t.w) ∧
    ((S.knn i t).h = t.h ∧ (S.knn i t).w = t.w) ∧
    ((S.lbdm i t).h = t.h ∧ (S.lbdm i t).w = t.w) ∧
    ((S.lkm i t).h = t.h ∧ (S.lkm i t).w = t.w)

/-- Spec §4.3 boundary-condition contract: `alpha == 0` wherever the trimap
says certain background (trimap value 0). -/
def Solvers.bgZero (S : Solvers) : Prop :=
  ∀ i t y x, y < t.h → x < t.w → t.px y x = 0 →
    (S.cf i t).px y x = 0 ∧ (S.knn i t).px y x = 0 ∧
    (S.lbdm i t).px y x = 0 ∧ (S.lkm i t).px y x = 0

/-- Models `image_array.astype(np.float64) / 255.0`. -/
def normalizeImg3 (i : Img3) : QImg3 :=
  ⟨i.h, i.w, fun y x =>
    (((i.px y x).1 : ℚ) / 255, ((i.px y x).2.1 : ℚ) / 255, ((i.px y x).2.2 : ℚ) / 255)⟩

/-- Models `trimap.astype(np.float64) / 255.0`. -/
def normalizeImg (i : Img) : QImg :=
  ⟨i.h, i.w, fun y x => (i.px y x : ℚ) / 255⟩

/-- Models `classical_matting.py` lines 126–128:
`alpha = np.clip(alpha, 0, 1); alpha_matte = (alpha * 255).astype(np.uint8)`.
numpy's `astype(np.uint8)` on an in-range float truncates toward zero. -/
def alphaToU8 (a : QImg) : Img :=
  ⟨a.h, a.w, fun y x => (Rat.floor (255 * min 1 (max 0 (a.px y x)))).toNat⟩

/-- Models `vitmatte.py` line 171: `(alpha_matte * 255).astype(np.uint8)` with
no clip; the out-of-range C cast is modelled as truncation followed by a wrap
modulo 256 (no claim depends on out-of-range network outputs). -/
def vitAlphaToU8 (a : QImg) : Img :=
  ⟨a.h, a.w, fun y x => ((Rat.floor (255 * a.px y x)) % 256).toNat⟩

/-- Mask resampling step shared by both services (`classical_matting.py`
lines 102–107, `vitmatte.py` lines 145–150): only when the working image size
differs from the decoded image size is the mask nearest-neighbour resampled
to the working size; otherwise it is used unchanged (even if its own size
mismatches the image — caught later by the shape check). -/
def resampleMaskToWorking (mask : Img) (image image_resized : Img3) : Option Img :=
  if (image_resized.h, image_resized.w) ≠ (image.h, image.w)
  then cvResizeNearest mask image_resized.w image_resized.h
  else some mask

/-- Back-restoration step shared by both services (`classical_matting.py`
lines 130–137, `vitmatte.py` lines 173–180): only when the working size
differs from `original_size` are the alpha matte (INTER_LINEAR) and the
trimap (INTER_NEAREST) resized back.  Nothing else is resized back. -/
def resizeBack (alpha_matte trimap : Img) (working original_size : Nat × Nat) :
    Option (Img × Img) :=
  if working ≠ original_size then
    match cvResizeLinear alpha_matte original_size.2 original_size.1,
          cvResizeNearest trimap original_size.2 original_size.1 with
    | some a2, some t2 => some (a2, t2)
    | _, _ => none
  else some (alpha_matte, trimap)

namespace ClassicalMattingService

/-- The `valid_algorithms` list of `ClassicalMattingService.__init__`. -/
def valid_algorithms : List String := ["cf", "knn", "lbdm", "lkm"]

/-- Models `ClassicalMattingService._apply_matting_algorithm`
(`classical_matting.py` lines 29–65).  The 3-channel check is enforced by the
`QImg3` type (`.convert("RGB")` always yields 3 channels); an unsupported
name reaches the `else` branch whose `ValueError` is re-raised as the wrapped
`RuntimeError`, i.e. `mattingFailure`. -/
def apply_matting_algorithm (S : Solvers) (image : QImg3) (trimap : QImg)
    (algorithm : String) : Except MattingError QImg :=
  if (image.h, image.w) ≠ (trimap.h, trimap.w) then .error .shapeMismatch
  else if algorithm = "cf" then .ok (S.cf image trimap)
  else if algorithm = "knn" then .ok (S.knn image trimap)
  else if algorithm = "lbdm" then .ok (S.lbdm image trimap)
  else if algorithm = "lkm" then .ok (S.lkm image trimap)
  else .error .mattingFailure

/-- Models `ClassicalMattingService.generate_matte` (`classical_matting.py`
lines 67–162) from the decode boundary on: `img?`/`mask?` are the results of
`PIL.Image.open(...).convert(...)` (`none` = the decode raises; the algorithm
validity check at line 88 happens before the decode at line 93, hence before
the `Option`s are even examined).  `elapsed` is the wall-clock duration
measured by the excluded runtime, threaded through `round(..., 3)`. -/
def generate_matte (S : Solvers) (elapsed : ℚ) (img? : Option Img3)
    (mask? : Option Img) (erosion_kernel_size dilation_kernel_size max_size : Nat)
    (algorithm : String) : Except MattingError ResultBundle :=
  if algorithm ∈ valid_algorithms then
    match img?, mask? with
    | some image, some mask =>
      match TrimapGenerationService.resize_image image max_size with
      | none => .error .cvError
      | some (image_resized, original_size) =>
        match resampleMaskToWorking mask image image_resized with
        | none => .error .cvError
        | some mask_resized =>
          match TrimapGenerationService.create_trimap mask_resized
              erosion_kernel_size dilation_kernel_size with
          | none => .error .cvError
          | some trimap =>
            match apply_matting_algorithm S (normalizeImg3 image_resized)
                (normalizeImg trimap) algorithm with
            | .error er => .error er
            | .ok alpha =>
              let foreground_rgb := S.fgml (normalizeImg3 image_resized) alpha
              let foreground : Layer := ⟨alpha.h, alpha.w, foreground_rgb.px, alpha.px⟩
              match resizeBack (alphaToU8 alpha) trimap
                  (image_resized.h, image_resized.w) original_size with
              | none => .error .cvError
              | some (alpha_matte2, trimap2) =>
                .ok { alpha_matte := alpha_matte2, trimap := trimap2,
                      original_image := image, foreground := some foreground,
                      processing_time := roundQ3 elapsed,
                      image_size := original_size,
                      algorithm := some algorithm,
                      parameters := ⟨erosion_kernel_size, dilation_kernel_size,
                                     max_size, some algorithm⟩ }
    | _, _ => .error .decodeError
  else .error .invalidAlgorithm

end ClassicalMattingService

namespace ViTMatteService

/-- Models `ViTMatteService.generate_matte` (`vitmatte.py` lines 112–202).
The processor/network pair is the abstract collaborator `infer` (spec §6:
`infer(image, trimap) -> alpha`); model initialisation is assumed (the
service constructor raises otherwise).  The mask→trimap preprocessing is the
verbatim duplicate `_create_trimap`/`_resize_image` of `trimap.py`, embedded
once above.  Note the returned dict has no `"algorithm"` and no
`"foreground"` key. -/
def generate_matte (infer : Img3 → Img → QImg) (elapsed : ℚ) (img? : Option Img3)
    (mask? : Option Img) (erosion_kernel_size dilation_kernel_size max_size : Nat) :
    Except MattingError ResultBundle :=
  match img?, mask? with
  | some image, some mask =>
    match TrimapGenerationService.resize_image image max_size with
    | none => .error .cvError
    | some (image_resized, original_size) =>
      match resampleMaskToWorking mask image image_resized with
      | none => .error .cvError
      | some mask_resized =>
        match TrimapGenerationService.create_trimap mask_resized
            erosion_kernel_size dilation_kernel_size with
        | none => .error .cvError
        | some trimap =>
          let alpha := infer image_resized trimap
          match resizeBack (vitAlphaToU8 alpha) trimap
              (image_resized.h, image_resized.w) original_size with
          | none => .error .cvError
          | some (alpha_matte2, trimap2) =>
            .ok { alpha_matte := alpha_matte2, trimap := trimap2,
                  original_image := image, foreground := none,
                  processing_time := roundQ3 elapsed,
                  image_size := original_size,
                  algorithm := none,
                  parameters := ⟨erosion_kernel_size, dilation_kernel_size,
                                 max_size, none⟩ }
  | _, _ => .error .decodeError

end ViTMatteService

/-- Models the dispatch core of `routes.py` `matte_segment_image` (lines
99–117): `algorithm == "vitmatte"` goes to the ViTMatte service, everything
else to the classical service (which then rejects names outside its own
`valid_algorithms` list before touching the uploads). -/
def matte_segment_image (S : Solvers) (infer : Img3 → Img → QImg) (elapsed : ℚ)
    (img? : Option Img3) (mask? : Option Img)
    (erosion_kernel_size dilation_kernel_size max_size : Nat) (algorithm : String) :
    Except MattingError ResultBundle :=
  if algorithm = "vitmatte" then
    ViTMatteService.generate_matte infer elapsed img? mask?
      erosion_kernel_size dilation_kernel_size max_size
  else
    ClassicalMattingService.generate_matte S elapsed img? mask?
      erosion_kernel_size dilation_kernel_size max_size algorithm

/-- Boolean mask raster (numpy bool array), e.g. `selection_mask_array > 0`. -/
structure BMask where
  h : Nat
  w : Nat
  px : Nat → Nat → Bool

/-- Models `round(x, 4)` (confidences in the segmentation results). -/
def roundQ4 (q : ℚ) : ℚ := Rat.divInt (roundHalfEven (q * 10000)) 10000

/-- Fractional part helper for `colorsys` hue arithmetic (`hue % 1.0`). -/
def qmod1 (q : ℚ) : ℚ := q - (Rat.floor q : ℚ)

/-- The `_v` helper of `colorsys.hls_to_rgb`, in exact rationals. -/
def hlsV (m1 m2 hue : ℚ) : ℚ :=
  let hue := qmod1 hue
  if hue < Rat.divInt 1 6 then m1 + (m2 - m1) * hue * 6
  else if hue < Rat.divInt 1 2 then m2
  else if hue < Rat.divInt 2 3 then m1 + (m2 - m1) * (Rat.divInt 2 3 - hue) * 6
  else m1

/-- Models `SAM2Service._generate_colors` for index `i` of `n`:
`colorsys.hls_to_rgb(i/n, 0.5, 1.0)` (so `m2 = 1`, `m1 = 0`) then
`int(c * 255)` per channel.  Exact rationals stand in for the float hue. -/
def generateColor (i n : Nat) : Nat × Nat × Nat :=
  let hue := (i : ℚ) / (n : ℚ)
  ((Rat.floor (255 * hlsV 0 1 (hue + Rat.divInt 1 3))).toNat,
   (Rat.floor (255 * hlsV 0 1 hue)).toNat,
   (Rat.floor (255 * hlsV 0 1 (hue - Rat.divInt 1 3))).toNat)

namespace SAM2Service

/-- Models `SAM2Service._generate_colors`. -/
def generate_colors (n : Nat) : List (Nat × Nat × Nat) :=
  (List.range n).map fun i => generateColor i n

/-- One entry of the `segments` list (`SAM2Service._process_mask` result).
The base64 PNG of the mask comes from the abstract encoder. -/
structure Segment where
  segment_id : Nat
  bbox : List Nat
  confidence : ℚ
  mask : String
  area : Nat
  deriving DecidableEq, Repr

/-- Result dict of `SAM2Service.segment_with_mask`.  The `color_map` dict is
kept as its insertion-ordered entry list (`str(color)` keys are in bijection
with the colour triples for the colours generated here). -/
structure SegResult where
  segments : List Segment
  semantic_mask : String
  color_map : List ((Nat × Nat × Nat) × Nat × ℚ)
  processing_time : ℚ
  deriving DecidableEq, Repr

/-- Row-major list of nonzero coordinates, i.e. `np.where(mask)` pairs. -/
def coordsList (m : BMask) : List (Nat × Nat) :=
  (List.range m.h).flatMap fun y =>
    (List.range m.w).filterMap fun x => if m.px y x then some (y, x) else none

/-- Models `SAM2Service._process_mask` (lines 271–307): bounding box from the
nonzero coordinates (or `[0,0,0,0]` when empty), pixel count as `area`, and
the base64 PNG of `mask * 255` via the abstract encoder. -/
def process_mask (encodeL : Img → String) (m : BMask) (confidence : ℚ)
    (segment_id : Nat) : Segment :=
  let cs := coordsList m
  let bbox :=
    match cs with
    | [] => [0, 0, 0, 0]
    | c :: rest =>
      let ys := (c :: rest).map Prod.fst
      let xs := (c :: rest).map Prod.snd
      [xs.foldr min c.2, ys.foldr min c.1, xs.foldr max c.2, ys.foldr max c.1]
  { segment_id := segment_id, bbox := bbox, confidence := roundQ4 confidence,
    mask := encodeL ⟨m.h, m.w, fun y x => if m.px y x then 255 else 0⟩,
    area := cs.length }

/-- Sequentially painted semantic image: later masks overwrite earlier ones,
as in the `semantic_image[mask] = color` loop. -/
def semanticPx (ms : List (BMask × (Nat × Nat × Nat))) (y x : Nat) : Nat × Nat × Nat :=
  ms.foldl (fun acc p => if p.1.px y x then p.2 else acc) (0, 0, 0)

/-- Models `np.any(selection_mask_binary)`. -/
def anyTrue (m : BMask) : Bool :=
  (List.range m.h).any fun y => (List.range m.w).any fun x => m.px y x

/-- Models `SAM2Service.segment_with_mask` (`sam2.py` lines 175–269) from the
decode boundary.  External collaborators become parameters: `predict` is
`SAM2ImagePredictor.predict` with a 256×256 mask prompt (returning masks and
scores), `pilResize` is PIL's `Image.resize` to `(256, 256)`, `encodeL` and
`encodeRGB` are the PNG+base64 encoders.  When the selection mask has no
nonzero pixel the early return at lines 207–213 fires — before the predictor
is even constructed, which is why the result cannot depend on `predict`. -/
def segment_with_mask (predict : BMask → List BMask × List ℚ)
    (pilResize : Img → Nat → Nat → Img) (encodeL : Img → String)
    (encodeRGB : Img3 → String) (elapsed : ℚ) (image : Img3)
    (selection_mask : Img) : SegResult :=
  let binary : BMask :=
    ⟨selection_mask.h, selection_mask.w, fun y x => decide (0 < selection_mask.px y x)⟩
  if anyTrue binary = false then
    { segments := [], processing_time := roundQ3 elapsed,
      semantic_mask := "", color_map := [] }
  else
    let maskU8 : Img := ⟨binary.h, binary.w, fun y x => if binary.px y x then 255 else 0⟩
    let resized := pilResize maskU8 256 256
    let input_mask : BMask := ⟨resized.h, resized.w, fun y x => decide (0 < resized.px y x)⟩
    let ms := predict input_mask
    let colors := generate_colors ms.1.length
    let pairs := (ms.1.zip ms.2).enum
    let segments := pairs.map fun p => process_mask encodeL p.2.1 p.2.2 p.1
    let color_map := pairs.map fun p =>
      (colors.getD p.1 (0, 0, 0), p.1, roundQ4 p.2.2)
    let semantic : Img3 :=
      ⟨image.h, image.w, fun y x =>
        semanticPx (ms.1.enum.map fun q => (q.2, colors.getD q.1 (0, 0, 0))) y x⟩
    { segments := segments.mergeSort fun a b => decide (b.confidence ≤ a.confidence),
      semantic_mask := encodeRGB semantic,
      color_map := color_map,
      processing_time := roundQ3 elapsed }

end SAM2Service

/-- Decidable check that every in-bounds pixel of a mask is 0. -/
def imgAllZeroB (m : Img) : Bool :=
  (List.range m.h).all fun y => (List.range m.w).all fun x => m.px y x == 0

/-- Decidable check of the C1 trimap postcondition on a `create_trimap`
result: the call succeeded, dimensions match the mask, every pixel is one of
{0, 128, 255}, and every 255 pixel is above the 127 binarization threshold in
the input mask. -/
def trimapPartitionOk (mask : Img) (r : Option Img) : Bool :=
  match r with
  | none => false
  | some t =>
    (t.h == mask.h) && (t.w == mask.w) &&
    ((List.range t.h).all fun y => (List.range t.w).all fun x =>
      ((t.px y x == 0) || (t.px y x == 128) || (t.px y x == 255)) &&
      (!(t.px y x == 255) || decide (127 < mask.px y x)))

/-- Decidable check that a produced trimap is all background (all 0). -/
def trimapAllZeroB (r : Option Img) : Bool :=
  match r with
  | none => false
  | some t => (List.range t.h).all fun y => (List.range t.w).all fun x => t.px y x == 0

/-- Shape projection of a matting run: on success,
`(image_size, foreground dims, alpha_matte dims, trimap dims)`. -/
def bundleShape (r : Except MattingError ResultBundle) :
    Option ((Nat × Nat) × Option (Nat × Nat) × (Nat × Nat) × (Nat × Nat)) :=
  match r with
  | .ok b => some (b.image_size, b.foreground.map fun f => (f.h, f.w),
                   (b.alpha_matte.h, b.alpha_matte.w), (b.trimap.h, b.trimap.w))
  | .error _ => none

/-- Metadata projection of a matting run: on success,
`(image_size, algorithm, processing_time, parameters, foreground present?)`. -/
def bundleMeta (r : Except MattingError ResultBundle) :
    Option ((Nat × Nat) × Option String × ℚ × Params × Bool) :=
  match r with
  | .ok b => some (b.image_size, b.algorithm, b.processing_time, b.parameters,
                   b.foreground.isSome)
  | .error _ => none

/-- Decidable check that a successful run's 8-bit alpha matte is all zero. -/
def alphaMatteZeroB (r : Except MattingError ResultBundle) : Bool :=
  match r with
  | .ok b => (List.range b.alpha_matte.h).all fun y =>
      (List.range b.alpha_matte.w).all fun x => b.alpha_matte.px y x == 0
  | .error _ => false

/-- Decidable check that a successful run's foreground layer (when present)
has an all-zero alpha channel, i.e. carries no visible foreground. -/
def foregroundAlphaZeroB (r : Except MattingError ResultBundle) : Bool :=
  match r with
  | .ok b =>
    match b.foreground with
    | some f => (List.range f.h).all fun y =>
        (List.range f.w).all fun x => decide (f.alpha y x = 0)
    | none => true
  | .error _ => false

/-- Spec-claimed conversion (claim C6 wording): clamp alpha to [0,1], scale by
255, round to nearest, clamp to [0,255].  This is the claim's formula, to be
compared with the source's `alphaToU8`. -/
def specRoundU8 (a : ℚ) : Nat :=
  (min 255 (max 0 (roundHalfEven (255 * min 1 (max 0 a))))).toNat

/-- Alpha solvers that return an all-zero alpha field of the trimap's shape;
they satisfy the spec §4.3 contracts and serve as concrete collaborators in
witnesses. -/
def zeroSolvers : Solvers :=
  { cf := fun _ t => ⟨t.h, t.w, fun _ _ => 0⟩,
    knn := fun _ t => ⟨t.h, t.w, fun _ _ => 0⟩,
    lbdm := fun _ t => ⟨t.h, t.w, fun _ _ => 0⟩,
    lkm := fun _ t => ⟨t.h, t.w, fun _ _ => 0⟩,
    fgml := fun i _ => ⟨i.h, i.w, fun _ _ => (0, 0, 0)⟩ }

/-- Neural matting collaborator returning an all-zero alpha field of the
trimap's shape (concrete `infer` for witnesses). -/
def zeroInfer : Img3 → Img → QImg := fun _ t => ⟨t.h, t.w, fun _ _ => 0⟩

/-- Concrete 2×2 constant-255 mask (witness input). -/
def witMask2 : Img := ⟨2, 2, fun _ _ => 255⟩

/-- Concrete 2×2 all-zero mask (witness input). -/
def zMask : Img := ⟨2, 2, fun _ _ => 0⟩

/-- Concrete 1×1 constant-255 mask (failing input for the zero-kernel bug). -/
def oneMask : Img := ⟨1, 1, fun _ _ => 255⟩

/-- Concrete 4×2 RGB image (gets downscaled to 2×1 at `max_size = 2`). -/
def tallImg3 : Img3 := ⟨4, 2, fun _ _ => (10, 20, 30)⟩

/-- Concrete 4×2 constant-255 mask matching `tallImg3`. -/
def tallMask : Img := ⟨4, 2, fun _ _ => 255⟩

/-- Concrete 3×1 RGB image whose scaled short side truncates to 0 at
`max_size = 2` (counterexample input for the resize contract). -/
def thinImg3 : Img3 := ⟨3, 1, fun _ _ => (0, 0, 0)⟩

/-- Concrete 2×2 RGB image (witness input, no resizing at `max_size = 16`). -/
def smallImg3 : Img3 := ⟨2, 2, fun _ _ => (5, 5, 5)⟩

/-- Concrete 1×1 all-zero selection mask (C10 witness input). -/
def selZero : Img := ⟨1, 1, fun _ _ => 0⟩

theorem foldr_min_le_of_mem {l : List Nat} {a : Nat} (b : Nat) (h : a ∈ l) :
    l.foldr min b ≤ a := by
  induction l with
  | nil => cases h
  | cons x xs ih =>
    rcases List.mem_cons.mp h with h1 | h1
    · subst h1; exact min_le_left _ _
    · exact le_trans (min_le_right _ _) (ih h1)

theorem foldr_max_eq_zero {l : List Nat} (hz : ∀ a ∈ l, a = 0) :
    l.foldr max 0 = 0 := by
  induction l with
  | nil => rfl
  | cons x xs ih =>
    have hx := hz x (List.mem_cons_self _ _)
    have hxs := ih fun a ha => hz a (List.mem_cons_of_mem _ ha)
    simp [hx, hxs]

theorem inEllipseKernel_anchor (k : Nat) (hk : k ≠ 0) :
    inEllipseKernel k (k / 2) (k / 2) = true := by
  unfold inEllipseKernel
  have hdx : ellipseDx (k / 2) (k / 2)
      (k / 2 * (k / 2) - (((k / 2 : Nat) : Int) - ((k / 2 : Nat) : Int)).natAbs *
        (((k / 2 : Nat) : Int) - ((k / 2 : Nat) : Int)).natAbs) = k / 2 := by
    rw [sub_self, Int.natAbs_zero]
    by_cases hr : k / 2 = 0
    · rw [hr]; rfl
    · unfold ellipseDx
      rw [if_neg hr]
      have h1 : 4 * (k / 2) * (k / 2) * (k / 2 * (k / 2) - 0 * 0)
          = 2 * (k / 2 * (k / 2)) * (2 * (k / 2 * (k / 2))) := by
        simp only [Nat.mul_zero, Nat.zero_mul, Nat.sub_zero]; ring
      rw [h1, Nat.sqrt_eq]
      have h2 : 2 * (k / 2 * (k / 2)) + k / 2 = k / 2 + 2 * (k / 2) * (k / 2) := by ring
      rw [h2, Nat.add_mul_div_left _ _ (by omega : 0 < 2 * (k / 2)),
        Nat.div_eq_of_lt (by omega), Nat.zero_add]
  simp only [sub_self, Int.natAbs_zero, Nat.zero_le, if_true, hdx]
  simp only [Bool.and_eq_true, decide_eq_true_iff]
  omega

theorem anchor_mem_ellipseKernel (k : Nat) (hk : k ≠ 0) :
    ((0 : Int), (0 : Int)) ∈ ellipseKernel k := by
  unfold ellipseKernel
  rw [List.mem_flatMap]
  refine ⟨k / 2, List.mem_range.mpr (Nat.div_lt_self (Nat.pos_of_ne_zero hk) one_lt_two), ?_⟩
  rw [List.mem_filterMap]
  refine ⟨k / 2, List.mem_range.mpr (Nat.div_lt_self (Nat.pos_of_ne_zero hk) one_lt_two), ?_⟩
  rw [if_pos (inEllipseKernel_anchor k hk)]
  simp

theorem erode_le_at (K : List (Int × Int)) (m : Img) (y x : Nat)
    (hK : ((0 : Int), (0 : Int)) ∈ K) (hy : y < m.h) (hx : x < m.w) :
    (erodeImg K m).px y x ≤ m.px y x := by
  have hmem : sampleB m 255 ((y : Int) + (0 : Int)) ((x : Int) + (0 : Int)) ∈
      K.map fun o => sampleB m 255 ((y : Int) + o.1) ((x : Int) + o.2) :=
    List.mem_map.mpr ⟨((0 : Int), (0 : Int)), hK, rfl⟩
  have h := foldr_min_le_of_mem 255 hmem
  unfold erodeImg
  have hs : sampleB m 255 ((y : Int) + (0 : Int)) ((x : Int) + (0 : Int)) = m.px y x := by
    unfold sampleB
    rw [if_pos (by omega)]
    simp
  rw [hs] at h
  exact h

theorem dilate_px_zero (K : List (Int × Int)) (m : Img)
    (hz : ∀ a b, a < m.h → b < m.w → m.px a b = 0) (y x : Nat) :
    (dilateImg K m).px y x = 0 := by
  unfold dilateImg
  apply foldr_max_eq_zero
  intro a ha
  rcases List.mem_map.mp ha with ⟨o, _, rfl⟩
  unfold sampleB
  split
  case isTrue hc => exact hz _ _ (by omega) (by omega)
  case isFalse => rfl

/-- C1: for every input mask and all erosion/dilation kernel sizes ≥ 1,
`create_trimap` succeeds and produces a raster of the mask's dimensions in
which every pixel takes exactly one of the values {0, 128, 255}, and every
pixel valued 255 is above the 127 binarization threshold (i.e. is foreground,
value 255, in the binarized input mask). -/
theorem create_trimap_partition (mask : Img) (e d : Nat) (he : 1 ≤ e) (hd : 1 ≤ d) :
    trimapPartitionOk mask (TrimapGenerationService.create_trimap mask e d) = true := by
  have hge : getStructuringElement e = some (ellipseKernel e) := by
    unfold getStructuringElement
    rw [if_neg (by omega)]
  have hgd : getStructuringElement d = some (ellipseKernel d) := by
    unfold getStructuringElement
    rw [if_neg (by omega)]
  unfold TrimapGenerationService.create_trimap
  rw [hge, hgd]
  unfold trimapPartitionOk
  simp only [beq_self_eq_true, Bool.and_eq_true, Bool.or_eq_true, beq_iff_eq,
    List.all_eq_true, List.mem_range, Bool.not_eq_true', decide_eq_true_iff,
    beq_eq_false_iff_ne, ne_eq, true_and]
  intro y hy x hx
  constructor
  · unfold trimapPx
    split
    · exact Or.inr rfl
    split
    · exact Or.inl (Or.inr rfl)
    · exact Or.inl (Or.inl rfl)
  · by_cases hfg : (erodeImg (ellipseKernel e) (binarize mask)).px y x = 255
    · right
      have hle := erode_le_at (ellipseKernel e) (binarize mask) y x
        (anchor_mem_ellipseKernel e (by omega)) hy hx
      rw [hfg] at hle
      by_cases hbin : 127 < mask.px y x
      · exact hbin
      · exfalso
        have h0 : (binarize mask).px y x = 0 := by
          unfold binarize
          simp [hbin]
        rw [h0] at hle
        omega
    · left
      unfold trimapPx
      rw [if_neg hfg]
      split <;> omega

/-- Witness for C1 at a concrete mask and kernel sizes 3. -/
theorem create_trimap_partition_witness :
    1 ≤ 3 ∧ trimapPartitionOk witMask2 (TrimapGenerationService.create_trimap witMask2 3 3) = true :=
  ⟨by decide, create_trimap_partition witMask2 3 3 (by decide) (by decide)⟩

/-- C7: the spec claims `erosion_kernel_size = 0` succeeds and degenerates
erosion to the identity; in the code `cv2.getStructuringElement` raises on a
0×0 kernel, so `create_trimap` fails on the concrete mask `[[255]]` with
`erosion_kernel_size = 0` instead of returning the identity-eroded trimap. -/
theorem create_trimap_zero_erosion_raises :
    TrimapGenerationService.create_trimap oneMask 0 10 = none := rfl

theorem cvResizeLinear3_dims (src : Img3) (dW dH : Nat) (r : Img3)
    (h : cvResizeLinear3 src dW dH = some r) : r.h = dH ∧ r.w = dW := by
  unfold cvResizeLinear3 at h
  split at h
  · cases h
  · cases h
    exact ⟨rfl, rfl⟩

theorem cvResizeLinear_dims (src : Img) (dW dH : Nat) (r : Img)
    (h : cvResizeLinear src dW dH = some r) : r.h = dH ∧ r.w = dW := by
  unfold cvResizeLinear at h
  split at h
  · cases h
  · cases h
    exact ⟨rfl, rfl⟩

theorem cvResizeNearest_dims (src : Img) (dW dH : Nat) (r : Img)
    (h : cvResizeNearest src dW dH = some r) : r.h = dH ∧ r.w = dW := by
  unfold cvResizeNearest at h
  split at h
  · cases h
  · cases h
    exact ⟨rfl, rfl⟩

theorem resize_image_original_size (img : Img3) (m : Nat) (r : Img3) (os : Nat × Nat)
    (h : TrimapGenerationService.resize_image img m = some (r, os)) :
    os = (img.h, img.w) := by
  simp only [TrimapGenerationService.resize_image] at h
  split at h
  · cases h; rfl
  · rw [Option.map_eq_some'] at h
    obtain ⟨a, _, heq⟩ := h
    cases heq
    rfl

theorem resize_image_out_le (img : Img3) (m : Nat) (r : Img3) (os : Nat × Nat)
    (h : TrimapGenerationService.resize_image img m = some (r, os)) :
    max r.h r.w ≤ m := by
  simp only [TrimapGenerationService.resize_image] at h
  split at h
  case isTrue hle => cases h; exact hle
  case isFalse hgt =>
    rw [Option.map_eq_some'] at h
    obtain ⟨a, ha, heq⟩ := h
    cases heq
    obtain ⟨hh, hw⟩ := cvResizeLinear3_dims _ _ _ _ ha
    rw [hh, hw]
    have hscale : ∀ s t : Nat, s ≤ t → s * m / t ≤ m := by
      intro s t hst
      calc s * m / t ≤ t * m / t := Nat.div_le_div_right (Nat.mul_le_mul_right m hst)
        _ ≤ m := by
          rcases Nat.eq_zero_or_pos t with h0 | hpos
          · simp [h0]
          · rw [Nat.mul_div_cancel_left m hpos]
    by_cases hcmp : img.w < img.h
    · simp only [if_pos hcmp]
      have := hscale img.w img.h (le_of_lt hcmp)
      omega
    · simp only [if_neg hcmp]
      have := hscale img.h img.w (by omega)
      omega

/-- C4: applying `resize_image` a second time with the same `max_size` to the
image produced by a first (successful) application returns that image
unchanged, because the first output already satisfies
`max(H, W) <= max_size` and so takes the identity branch. -/
theorem resize_image_idempotent (img : Img3) (m : Nat) :
    (TrimapGenerationService.resize_image img m).bind
        (fun p => TrimapGenerationService.resize_image p.1 m)
      = (TrimapGenerationService.resize_image img m).map
        (fun p => (p.1, (p.1.h, p.1.w))) := by
  cases h : TrimapGenerationService.resize_image img m with
  | none => rfl
  | some p =>
    obtain ⟨r, os⟩ := p
    have hle := resize_image_out_le img m r os h
    show TrimapGenerationService.resize_image r m = some (r, (r.h, r.w))
    unfold TrimapGenerationService.resize_image
    rw [if_pos hle]

/-- C3 counterexample: for the 3×1 image and `max_size = 2` the claim predicts
success with the shorter side `max(1, round(1 * 2/3)) = 1`; the code computes
`int(1 * 2 / 3) = 0` (truncation, no lower bound) and the subsequent
`cv2.resize` to an empty size raises, so `resize_image` fails. -/
theorem resize_image_truncates_to_zero :
    TrimapGenerationService.resize_image thinImg3 2 = none := rfl

/-- C3 (amended): if `max(H, W) <= max_size` the image is returned unchanged
with `original_size = (H, W)`; otherwise the longer side becomes `max_size`
and the shorter side becomes `floor(short * max_size / long)` — truncated,
not rounded to nearest, and with no lower bound of 1 — with `original_size`
still the pre-scale `(H, W)`; the call succeeds exactly when the truncated
shorter side is nonzero (a zero dimension makes `cv2.resize` raise). -/
theorem resize_image_contract (img : Img3) (m : Nat) :
    (max img.h img.w ≤ m →
      TrimapGenerationService.resize_image img m = some (img, (img.h, img.w))) ∧
    (m < max img.h img.w →
      (∀ r os, TrimapGenerationService.resize_image img m = some (r, os) →
          os = (img.h, img.w) ∧
          r.h = (if img.w < img.h then m else img.h * m / img.w) ∧
          r.w = (if img.w < img.h then img.w * m / img.h else m)) ∧
      ((TrimapGenerationService.resize_image img m).isSome = true ↔
        0 < (if img.w < img.h then img.w * m / img.h else img.h * m / img.w))) := by
  constructor
  · intro hle
    unfold TrimapGenerationService.resize_image
    rw [if_pos hle]
  · intro hgt
    constructor
    · intro r os h
      simp only [TrimapGenerationService.resize_image] at h
      rw [if_neg (by omega)] at h
      rw [Option.map_eq_some'] at h
      obtain ⟨a, ha, heq⟩ := h
      cases heq
      obtain ⟨hh, hw⟩ := cvResizeLinear3_dims _ _ _ _ ha
      exact ⟨rfl, hh, hw⟩
    · have hzero : ∀ s t : Nat, 0 < s * m / t → t ≠ 0 ∧ s ≠ 0 ∧ m ≠ 0 := by
        intro s t hp
        have ht : t ≠ 0 := by rintro rfl; rw [Nat.div_zero] at hp; omega
        have hle2 : t ≤ s * m := by
          by_contra hlt
          push_neg at hlt
          rw [Nat.div_eq_of_lt hlt] at hp
          omega
        have hsm : 0 < s * m := by omega
        refine ⟨ht, ?_, ?_⟩
        · rintro rfl; rw [Nat.zero_mul] at hsm; omega
        · rintro rfl; rw [Nat.mul_zero] at hsm; omega
      constructor
      · intro hs
        rw [Option.isSome_iff_exists] at hs
        obtain ⟨p, hp⟩ := hs
        simp only [TrimapGenerationService.resize_image] at hp
        rw [if_neg (by omega)] at hp
        rw [Option.map_eq_some'] at hp
        obtain ⟨a, ha, _⟩ := hp
        by_cases hcmp : img.w < img.h
        · rw [if_pos hcmp]
          rw [if_pos hcmp, if_pos hcmp] at ha
          unfold cvResizeLinear3 at ha
          split at ha
          · cases ha
          next hcond =>
            push_neg at hcond
            exact Nat.pos_of_ne_zero hcond.2.2.2
        · rw [if_neg hcmp]
          rw [if_neg hcmp, if_neg hcmp] at ha
          unfold cvResizeLinear3 at ha
          split at ha
          · cases ha
          next hcond =>
            push_neg at hcond
            exact Nat.pos_of_ne_zero hcond.2.2.1
      · intro hpos
        simp only [TrimapGenerationService.resize_image]
        rw [if_neg (by omega)]
        rw [Option.isSome_map']
        unfold cvResizeLinear3
        by_cases hcmp : img.w < img.h
        · rw [if_pos hcmp] at hpos
          obtain ⟨hh0, hw0, hm0⟩ := hzero img.w img.h hpos
          rw [if_neg (by simp only [if_pos hcmp]; omega)]
          rfl
        · rw [if_neg hcmp] at hpos
          obtain ⟨hw0, hh0, hm0⟩ := hzero img.h img.w hpos
          rw [if_neg (by simp only [if_neg hcmp]; omega)]
          rfl

/-- Witness for C3 at the concrete 4×2 image and `max_size = 2` (a genuine
downscale: the success criterion evaluates to `0 < 1`). -/
theorem resize_image_contract_witness :
    2 < max tallImg3.h tallImg3.w ∧
    (TrimapGenerationService.resize_image tallImg3 2).isSome = true :=
  ⟨by decide, ((resize_image_contract tallImg3 2).2 (by decide)).2.mpr (by decide)⟩

theorem classical_generate_matte_ok (S : Solvers) (tq : ℚ) (image : Img3) (mask : Img)
    (e d m : Nat) (alg : String) (b : ResultBundle)
    (hb : ClassicalMattingService.generate_matte S tq (some image) (some mask) e d m alg
      = .ok b) :
    ∃ imageR os mask_resized trimap alpha alpha2 trimap2,
      TrimapGenerationService.resize_image image m = some (imageR, os) ∧
      resampleMaskToWorking mask image imageR = some mask_resized ∧
      TrimapGenerationService.create_trimap mask_resized e d = some trimap ∧
      ClassicalMattingService.apply_matting_algorithm S (normalizeImg3 imageR)
        (normalizeImg trimap) alg = .ok alpha ∧
      resizeBack (alphaToU8 alpha) trimap (imageR.h, imageR.w) os
        = some (alpha2, trimap2) ∧
      b = { alpha_matte := alpha2, trimap := trimap2, original_image := image,
            foreground := some ⟨alpha.h, alpha.w,
              (S.fgml (normalizeImg3 imageR) alpha).px, alpha.px⟩,
            processing_time := roundQ3 tq, image_size := os,
            algorithm := some alg, parameters := ⟨e, d, m, some alg⟩ } := by
  by_cases halg : alg ∈ ClassicalMattingService.valid_algorithms
  · unfold ClassicalMattingService.generate_matte at hb
    rw [if_pos halg] at hb
    cases hre : TrimapGenerationService.resize_image image m with
    | none => simp only [hre] at hb; cases hb
    | some p =>
      obtain ⟨imageR, os⟩ := p
      simp only [hre] at hb
      cases hmr : resampleMaskToWorking mask image imageR with
      | none => simp only [hmr] at hb; cases hb
      | some mask_resized =>
        simp only [hmr] at hb
        cases htr : TrimapGenerationService.create_trimap mask_resized e d with
        | none => simp only [htr] at hb; cases hb
        | some trimap =>
          simp only [htr] at hb
          cases hal : ClassicalMattingService.apply_matting_algorithm S
              (normalizeImg3 imageR) (normalizeImg trimap) alg with
          | error er => simp only [hal] at hb; cases hb
          | ok alpha =>
            simp only [hal] at hb
            cases hback : resizeBack (alphaToU8 alpha) trimap (imageR.h, imageR.w) os with
            | none => simp only [hback] at hb; cases hb
            | some pr =>
              obtain ⟨alpha2, trimap2⟩ := pr
              simp only [hback] at hb
              cases hb
              exact ⟨imageR, os, mask_resized, trimap, alpha, alpha2, trimap2,
                rfl, hmr, htr, hal, hback, rfl⟩
  · unfold ClassicalMattingService.generate_matte at hb
    rw [if_neg halg] at hb
    cases hb

theorem vitmatte_generate_matte_ok (infer : Img3 → Img → QImg) (tq : ℚ)
    (image : Img3) (mask : Img) (e d m : Nat) (b : ResultBundle)
    (hb : ViTMatteService.generate_matte infer tq (some image) (some mask) e d m
      = .ok b) :
    ∃ imageR os mask_resized trimap alpha2 trimap2,
      TrimapGenerationService.resize_image image m = some (imageR, os) ∧
      resampleMaskToWorking mask image imageR = some mask_resized ∧
      TrimapGenerationService.create_trimap mask_resized e d = some trimap ∧
      resizeBack (vitAlphaToU8 (infer imageR trimap)) trimap (imageR.h, imageR.w) os
        = some (alpha2, trimap2) ∧
      b = { alpha_matte := alpha2, trimap := trimap2, original_image := image,
            foreground := none, processing_time := roundQ3 tq, image_size := os,
            algorithm := none, parameters := ⟨e, d, m, none⟩ } := by
  unfold ViTMatteService.generate_matte at hb
  cases hre : TrimapGenerationService.resize_image image m with
  | none => simp only [hre] at hb; cases hb
  | some p =>
    obtain ⟨imageR, os⟩ := p
    simp only [hre] at hb
    cases hmr : resampleMaskToWorking mask image imageR with
    | none => simp only [hmr] at hb; cases hb
    | some mask_resized =>
      simp only [hmr] at hb
      cases htr : TrimapGenerationService.create_trimap mask_resized e d with
      | none => simp only [htr] at hb; cases hb
      | some trimap =>
        simp only [htr] at hb
        cases hback : resizeBack (vitAlphaToU8 (infer imageR trimap)) trimap
            (imageR.h, imageR.w) os with
        | none => simp only [hback] at hb; cases hb
        | some pr =>
          obtain ⟨alpha2, trimap2⟩ := pr
          simp only [hback] at hb
          cases hb
          exact ⟨imageR, os, mask_resized, trimap, alpha2, trimap2,
            rfl, hmr, htr, hback, rfl⟩

/-- C5: for every algorithm string outside {cf, knn, lbdm, lkm, vitmatte} the
matting dispatch raises `InvalidAlgorithm`, and it does so for arbitrary
upload contents — including `none`, i.e. uploads whose decode would fail —
because the validity check at `classical_matting.py` line 88 runs before the
decode at line 93 and hence before any resizing or trimap construction. -/
theorem invalid_algorithm_rejected (S : Solvers) (infer : Img3 → Img → QImg)
    (elapsed : ℚ) (img? : Option Img3) (mask? : Option Img) (e d m : Nat)
    (alg : String) (h : alg ∉ ["cf", "knn", "lbdm", "lkm", "vitmatte"]) :
    matte_segment_image S infer elapsed img? mask? e d m alg
      = .error .invalidAlgorithm := by
  simp only [List.mem_cons, List.not_mem_nil, or_false] at h
  push_neg at h
  obtain ⟨h1, h2, h3, h4, h5⟩ := h
  unfold matte_segment_image
  rw [if_neg h5]
  unfold ClassicalMattingService.generate_matte
  rw [if_neg (by simp [ClassicalMattingService.valid_algorithms, h1, h2, h3, h4])]

/-- Witness for C5 at the concrete string "bogus" with undecodable (absent)
uploads. -/
theorem invalid_algorithm_rejected_witness :
    "bogus" ∉ ["cf", "knn", "lbdm", "lkm", "vitmatte"] ∧
    matte_segment_image zeroSolvers zeroInfer 0 none none 10 10 1024 "bogus"
      = .error .invalidAlgorithm :=
  ⟨by decide,
   invalid_algorithm_rejected zeroSolvers zeroInfer 0 none none 10 10 1024 "bogus"
     (by decide)⟩

theorem zeroSolvers_shapeOk : zeroSolvers.shapeOk :=
  fun _ _ => ⟨⟨rfl, rfl⟩, ⟨rfl, rfl⟩, ⟨rfl, rfl⟩, ⟨rfl, rfl⟩⟩

theorem zeroSolvers_bgZero : zeroSolvers.bgZero :=
  fun _ _ _ _ _ _ _ => ⟨rfl, rfl, rfl, rfl⟩

theorem create_trimap_dims (mask : Img) (e d : Nat) (t : Img)
    (h : TrimapGenerationService.create_trimap mask e d = some t) :
    t.h = mask.h ∧ t.w = mask.w := by
  unfold TrimapGenerationService.create_trimap at h
  split at h
  · cases h; exact ⟨rfl, rfl⟩
  · cases h

theorem apply_matting_algorithm_dims (S : Solvers) (hS : S.shapeOk) (i : QImg3)
    (t : QImg) (alg : String) (a : QImg)
    (h : ClassicalMattingService.apply_matting_algorithm S i t alg = .ok a) :
    a.h = t.h ∧ a.w = t.w := by
  unfold ClassicalMattingService.apply_matting_algorithm at h
  split at h
  · cases h
  split at h
  · cases h; exact (hS i t).1
  split at h
  · cases h; exact (hS i t).2.1
  split at h
  · cases h; exact (hS i t).2.2.1
  split at h
  · cases h; exact (hS i t).2.2.2
  · cases h

theorem resampleMask_dims_of_ne (mask : Img) (image imageR : Img3) (mr : Img)
    (hne : (imageR.h, imageR.w) ≠ (image.h, image.w))
    (h : resampleMaskToWorking mask image imageR = some mr) :
    mr.h = imageR.h ∧ mr.w = imageR.w := by
  unfold resampleMaskToWorking at h
  rw [if_pos hne] at h
  exact cvResizeNearest_dims _ _ _ _ h

theorem resizeBack_of_ne (am tr : Img) (working os : Nat × Nat) (a2 t2 : Img)
    (hne : working ≠ os)
    (h : resizeBack am tr working os = some (a2, t2)) :
    cvResizeLinear am os.2 os.1 = some a2 ∧ cvResizeNearest tr os.2 os.1 = some t2 := by
  unfold resizeBack at h
  rw [if_pos hne] at h
  cases hL : cvResizeLinear am os.2 os.1 with
  | none => simp only [hL] at h; cases h
  | some a =>
    cases hN : cvResizeNearest tr os.2 os.1 with
    | none => simp only [hL, hN] at h; cases h
    | some t =>
      simp only [hL, hN] at h
      cases h
      exact ⟨rfl, rfl⟩

/-- C9 (amended): every successful run of either service returns a bundle
whose `image_size` equals the original decoded image's `(height, width)` —
never the working size — whose `processing_time` is `round(elapsed, 3)` and
whose `parameters` echo the inputs, and whose rasters (`alpha_matte`,
`trimap`, `original_image`) are always present; but only the classical bundle
carries `algorithm` (= the selected name) and a `foreground` layer — the
ViTMatte bundle has neither key, contrary to the original claim. -/
theorem result_bundle_fields (S : Solvers) (infer : Img3 → Img → QImg) (tq : ℚ)
    (image : Img3) (mask : Img) (e d m : Nat) (alg : String) :
    (∀ b, ClassicalMattingService.generate_matte S tq (some image) (some mask) e d m alg
        = .ok b →
      b.image_size = (image.h, image.w) ∧ b.processing_time = roundQ3 tq ∧
      b.algorithm = some alg ∧ b.parameters = ⟨e, d, m, some alg⟩ ∧
      b.original_image = image ∧ b.foreground.isSome = true) ∧
    (∀ b, ViTMatteService.generate_matte infer tq (some image) (some mask) e d m
        = .ok b →
      b.image_size = (image.h, image.w) ∧ b.processing_time = roundQ3 tq ∧
      b.algorithm = none ∧ b.parameters = ⟨e, d, m, none⟩ ∧
      b.original_image = image ∧ b.foreground = none) := by
  constructor
  · intro b hb
    obtain ⟨imageR, os, mr, tr, al, a2, t2, hre, _, _, _, _, hbe⟩ :=
      classical_generate_matte_ok S tq image mask e d m alg b hb
    subst hbe
    exact ⟨resize_image_original_size image m imageR os hre, rfl, rfl, rfl, rfl, rfl⟩
  · intro b hb
    obtain ⟨imageR, os, mr, tr, a2, t2, hre, _, _, _, hbe⟩ :=
      vitmatte_generate_matte_ok infer tq image mask e d m b hb
    subst hbe
    exact ⟨resize_image_original_size image m imageR os hre, rfl, rfl, rfl, rfl, rfl⟩

/-- C9 counterexample: a successful concrete ViTMatte run returns a bundle
whose `algorithm` field is absent (`none`) — and which carries no foreground
layer — refuting the claim that every successful bundle contains the
`algorithm` field regardless of the chosen service. -/
theorem vitmatte_bundle_lacks_algorithm :
    bundleMeta (ViTMatteService.generate_matte zeroInfer 0 (some smallImg3)
      (some zMask) 1 1 16)
      = some ((2, 2), none, roundQ3 0, ⟨1, 1, 16, none⟩, false) := by decide

/-- Witness for C9: both services succeed on concrete 2×2 inputs, so the
field conclusions are not vacuous. -/
theorem result_bundle_fields_witness :
    (ClassicalMattingService.generate_matte zeroSolvers 0 (some smallImg3)
        (some witMask2) 1 1 16 "cf").isOk = true ∧
    (ViTMatteService.generate_matte zeroInfer 0 (some smallImg3)
        (some witMask2) 1 1 16).isOk = true ∧
    ((∀ b, ClassicalMattingService.generate_matte zeroSolvers 0 (some smallImg3)
        (some witMask2) 1 1 16 "cf" = .ok b →
      b.image_size = (smallImg3.h, smallImg3.w) ∧ b.processing_time = roundQ3 0 ∧
      b.algorithm = some "cf" ∧ b.parameters = ⟨1, 1, 16, some "cf"⟩ ∧
      b.original_image = smallImg3 ∧ b.foreground.isSome = true) ∧
    (∀ b, ViTMatteService.generate_matte zeroInfer 0 (some smallImg3)
        (some witMask2) 1 1 16 = .ok b →
      b.image_size = (smallImg3.h, smallImg3.w) ∧ b.processing_time = roundQ3 0 ∧
      b.algorithm = none ∧ b.parameters = ⟨1, 1, 16, none⟩ ∧
      b.original_image = smallImg3 ∧ b.foreground = none)) :=
  ⟨by decide, by decide,
   result_bundle_fields zeroSolvers zeroInfer 0 smallImg3 witMask2 1 1 16 "cf"⟩

/-- C2 (amended): for every successful classical matting run in which the
working size differs from the original (`max_size < max(H, W)`), the result
assembler restores the alpha matte (bilinear, `cvResizeLinear`) and the
trimap (nearest-neighbour, `cvResizeNearest`) to `original_size` before
encoding — but the foreground layer is NOT restored: it keeps the working
dimensions of the solver's alpha field, which differ from `image_size`. -/
theorem restore_alpha_trimap_not_foreground (S : Solvers) (tq : ℚ) (image : Img3)
    (mask : Img) (e d m : Nat) (alg : String) (hS : S.shapeOk)
    (hm : m < max image.h image.w) :
    ∀ b, ClassicalMattingService.generate_matte S tq (some image) (some mask) e d m alg
        = .ok b →
      b.image_size = (image.h, image.w) ∧
      (b.alpha_matte.h, b.alpha_matte.w) = (image.h, image.w) ∧
      (b.trimap.h, b.trimap.w) = (image.h, image.w) ∧
      ∀ f, b.foreground = some f → (f.h, f.w) ≠ b.image_size := by
  intro b hb
  obtain ⟨imageR, os, mr, tr, alpha, a2, t2, hre, hmr, htr, hal, hback, hbe⟩ :=
    classical_generate_matte_ok S tq image mask e d m alg b hb
  subst hbe
  have hos := resize_image_original_size image m imageR os hre
  have hwle := resize_image_out_le image m imageR os hre
  have hne : (imageR.h, imageR.w) ≠ os := by
    intro heq
    rw [hos] at heq
    have h1 : imageR.h = image.h := congrArg Prod.fst heq
    have h2 : imageR.w = image.w := congrArg Prod.snd heq
    rw [h1, h2] at hwle
    omega
  obtain ⟨hL, hN⟩ := resizeBack_of_ne _ _ _ _ _ _ hne hback
  obtain ⟨ha2h, ha2w⟩ := cvResizeLinear_dims _ _ _ _ hL
  obtain ⟨ht2h, ht2w⟩ := cvResizeNearest_dims _ _ _ _ hN
  refine ⟨hos, ?_, ?_, ?_⟩
  · show (a2.h, a2.w) = (image.h, image.w)
    rw [ha2h, ha2w, ← hos]
  · show (t2.h, t2.w) = (image.h, image.w)
    rw [ht2h, ht2w, ← hos]
  · intro f hf
    have hfeq : f = ⟨alpha.h, alpha.w, (S.fgml (normalizeImg3 imageR) alpha).px,
        alpha.px⟩ := by
      cases hf
      rfl
    subst hfeq
    show ((alpha.h : Nat), (alpha.w : Nat)) ≠ os
    have hneI : (imageR.h, imageR.w) ≠ (image.h, image.w) := by
      intro hI
      exact hne (by rw [hos]; exact hI)
    obtain ⟨hmrh, hmrw⟩ := resampleMask_dims_of_ne mask image imageR mr hneI hmr
    obtain ⟨htrh, htrw⟩ := create_trimap_dims mr e d tr htr
    obtain ⟨hah, haw⟩ := apply_matting_algorithm_dims S hS _ _ alg alpha hal
    have hdim : ((alpha.h : Nat), (alpha.w : Nat)) = (imageR.h, imageR.w) := by
      have h1 : alpha.h = imageR.h := by
        rw [hah]
        show (normalizeImg tr).h = imageR.h
        show tr.h = imageR.h
        rw [htrh, hmrh]
      have h1w : alpha.w = imageR.w := by
        rw [haw]
        show (normalizeImg tr).w = imageR.w
        show tr.w = imageR.w
        rw [htrw, hmrw]
      rw [h1, h1w]
    rw [hdim]
    exact hne

/-- C2 counterexample: a concrete classical run with a genuine downscale
(image 4×2 at `max_size = 2`, working size 2×1): the bundle's alpha matte and
trimap come back at the original 4×2 size, but the foreground layer stays at
the 2×1 working size — it is never resized back — refuting the claim that
the foreground layer is restored to `original_size` before encoding. -/
theorem foreground_not_restored :
    bundleShape (ClassicalMattingService.generate_matte zeroSolvers 0 (some tallImg3)
      (some tallMask) 1 1 2 "cf")
      = some ((4, 2), some (2, 1), (4, 2), (4, 2)) := by decide

/-- Witness for C2 at the same concrete downscaling run (the run succeeds, so
the amended conclusions are not vacuous). -/
theorem restore_alpha_trimap_not_foreground_witness :
    zeroSolvers.shapeOk ∧ 2 < max tallImg3.h tallImg3.w ∧
    (ClassicalMattingService.generate_matte zeroSolvers 0 (some tallImg3)
        (some tallMask) 1 1 2 "cf").isOk = true ∧
    (∀ b, ClassicalMattingService.generate_matte zeroSolvers 0 (some tallImg3)
        (some tallMask) 1 1 2 "cf" = .ok b →
      b.image_size = (tallImg3.h, tallImg3.w) ∧
      (b.alpha_matte.h, b.alpha_matte.w) = (tallImg3.h, tallImg3.w) ∧
      (b.trimap.h, b.trimap.w) = (tallImg3.h, tallImg3.w) ∧
      ∀ f, b.foreground = some f → (f.h, f.w) ≠ b.image_size) :=
  ⟨zeroSolvers_shapeOk, by decide, by decide,
   restore_alpha_trimap_not_foreground zeroSolvers 0 tallImg3 tallMask 1 1 2 "cf"
     zeroSolvers_shapeOk (by decide)⟩

theorem floor_toNat_spec (q : ℚ) (hq0 : 0 ≤ q) :
    (((Rat.floor q).toNat : ℚ) ≤ q) ∧ (q < ((Rat.floor q).toNat : ℚ) + 1) := by
  have hbr : Rat.floor q = ⌊q⌋ := rfl
  have hnn : 0 ≤ ⌊q⌋ := Int.floor_nonneg.mpr hq0
  have htn : ((⌊q⌋.toNat : ℚ)) = ((⌊q⌋ : ℤ) : ℚ) := by
    exact_mod_cast Int.toNat_of_nonneg hnn
  rw [hbr]
  constructor
  · calc ((⌊q⌋.toNat : ℚ)) = ((⌊q⌋ : ℤ) : ℚ) := htn
      _ ≤ q := Int.floor_le q
  · have h2 := Int.lt_floor_add_one q
    calc q < ((⌊q⌋ : ℤ) : ℚ) + 1 := h2
      _ = (⌊q⌋.toNat : ℚ) + 1 := by rw [htn]

/-- C6 (amended): the result assembler first clamps the solver's alpha to
[0, 1] and then converts to 8 bits by scaling by 255 and TRUNCATING toward
zero (numpy `astype(np.uint8)`), not rounding to nearest: the encoded value
`v` at each pixel is the unique natural number with
`v ≤ 255 * clamp(alpha, 0, 1) < v + 1`, and is always at most 255 (so the
extra clamp to [0, 255] claimed by the spec is vacuous). -/
theorem alphaToU8_clamps_then_truncates (a : QImg) (y x : Nat) :
    (((alphaToU8 a).px y x : ℚ) ≤ 255 * min 1 (max 0 (a.px y x))) ∧
    (255 * min 1 (max 0 (a.px y x)) < ((alphaToU8 a).px y x : ℚ) + 1) ∧
    ((alphaToU8 a).px y x ≤ 255) := by
  have hc0 : (0 : ℚ) ≤ min 1 (max 0 (a.px y x)) :=
    le_min (by norm_num) (le_max_left 0 _)
  have hc1 : min 1 (max 0 (a.px y x)) ≤ 1 := min_le_left _ _
  have hq0 : (0 : ℚ) ≤ 255 * min 1 (max 0 (a.px y x)) := by nlinarith
  obtain ⟨h1, h2⟩ := floor_toNat_spec (255 * min 1 (max 0 (a.px y x))) hq0
  refine ⟨h1, h2, ?_⟩
  have h255 : 255 * min 1 (max 0 (a.px y x)) ≤ 255 := by nlinarith
  have : (((alphaToU8 a).px y x : Nat) : ℚ) ≤ 255 := le_trans h1 h255
  exact_mod_cast this

/-- C6 counterexample: at alpha value 0.999 the assembler encodes
`floor(255 * 0.999) = 254`, while the claim's formula
`round(255 * clamp(0.999, 0, 1))` gives 255: `astype(np.uint8)` truncates, it
does not round. -/
theorem alphaToU8_not_round :
    (alphaToU8 ⟨1, 1, fun _ _ => Rat.divInt 999 1000⟩).px 0 0 = 254 ∧
    specRoundU8 (Rat.divInt 999 1000) = 255 ∧
    (alphaToU8 ⟨1, 1, fun _ _ => Rat.divInt 999 1000⟩).px 0 0
      ≠ specRoundU8 (Rat.divInt 999 1000) := by decide

theorem clampIdx_lt (n : Nat) (hn : 0 < n) (i : Int) : clampIdx n i < n := by
  unfold clampIdx
  omega

theorem cvResizeNearest_zero (src : Img) (dW dH : Nat) (r : Img)
    (h : cvResizeNearest src dW dH = some r)
    (hz : ∀ a b, a < src.h → b < src.w → src.px a b = 0) :
    ∀ y x, r.px y x = 0 := by
  unfold cvResizeNearest at h
  split at h
  · cases h
  next hcond =>
    push_neg at hcond
    cases h
    intro y x
    exact hz _ _ (by omega) (by omega)

theorem cvResizeLinear_zero (src : Img) (dW dH : Nat) (r : Img)
    (h : cvResizeLinear src dW dH = some r)
    (hz : ∀ a b, a < src.h → b < src.w → src.px a b = 0) :
    ∀ y x, r.px y x = 0 := by
  unfold cvResizeLinear at h
  split at h
  · cases h
  next hcond =>
    push_neg at hcond
    cases h
    intro y x
    have hzq : ∀ a b, a < src.h → b < src.w → ((src.px a b : Nat) : ℚ) = 0 := by
      intro a b ha hb
      rw [hz a b ha hb]
      norm_num
    show (roundHalfEven (bilinParam (fun a b => (src.px a b : ℚ)) src.h src.w
      (srcCoord src.h dH y) (srcCoord src.w dW x))).toNat = 0
    have hb0 : bilinParam (fun a b => (src.px a b : ℚ)) src.h src.w
        (srcCoord src.h dH y) (srcCoord src.w dW x) = 0 := by
      simp only [bilinParam]
      rw [hzq _ _ (clampIdx_lt _ (by omega) _) (clampIdx_lt _ (by omega) _),
          hzq _ _ (clampIdx_lt _ (by omega) _) (clampIdx_lt _ (by omega) _),
          hzq _ _ (clampIdx_lt _ (by omega) _) (clampIdx_lt _ (by omega) _),
          hzq _ _ (clampIdx_lt _ (by omega) _) (clampIdx_lt _ (by omega) _)]
      ring
    rw [hb0]
    decide

theorem binarize_zero (mask : Img)
    (hz : ∀ a b, a < mask.h → b < mask.w → mask.px a b = 0) :
    ∀ a b, a < (binarize mask).h → b < (binarize mask).w → (binarize mask).px a b = 0 := by
  intro a b ha hb
  show (if 127 < mask.px a b then 255 else 0) = 0
  rw [hz a b ha hb]
  norm_num

theorem create_trimap_zero (mask : Img)
    (hz : ∀ a b, a < mask.h → b < mask.w → mask.px a b = 0)
    (e d : Nat) (t : Img)
    (ht : TrimapGenerationService.create_trimap mask e d = some t) :
    ∀ a b, a < t.h → b < t.w → t.px a b = 0 := by
  by_cases he : e = 0
  · unfold TrimapGenerationService.create_trimap getStructuringElement at ht
    rw [if_pos he] at ht
    cases ht
  by_cases hd : d = 0
  · unfold TrimapGenerationService.create_trimap getStructuringElement at ht
    rw [if_neg he, if_pos hd] at ht
    cases ht
  unfold TrimapGenerationService.create_trimap getStructuringElement at ht
  rw [if_neg he, if_neg hd] at ht
  cases ht
  intro a b ha hb
  show trimapPx ((dilateImg (ellipseKernel d) (binarize mask)).px a b)
    ((erodeImg (ellipseKernel e) (binarize mask)).px a b) = 0
  have hbg : (dilateImg (ellipseKernel d) (binarize mask)).px a b = 0 :=
    dilate_px_zero (ellipseKernel d) (binarize mask) (binarize_zero mask hz) a b
  have hfg : (erodeImg (ellipseKernel e) (binarize mask)).px a b = 0 := by
    have hle := erode_le_at (ellipseKernel e) (binarize mask) a b
      (anchor_mem_ellipseKernel e he) ha hb
    have h0 : (binarize mask).px a b = 0 := binarize_zero mask hz a b ha hb
    omega
  rw [hbg, hfg]
  rfl

theorem apply_matting_algorithm_bgZero (S : Solvers) (hS : S.shapeOk)
    (hB : S.bgZero) (i : QImg3) (t : QImg) (alg : String) (a : QImg)
    (h : ClassicalMattingService.apply_matting_algorithm S i t alg = .ok a)
    (ht0 : ∀ y x, y < t.h → x < t.w → t.px y x = 0) :
    ∀ y x, y < a.h → x < a.w → a.px y x = 0 := by
  unfold ClassicalMattingService.apply_matting_algorithm at h
  split at h
  · cases h
  split at h
  · cases h
    intro y x hy hx
    have hyt : y < t.h := by rw [← (hS i t).1.1]; exact hy
    have hxt : x < t.w := by rw [← (hS i t).1.2]; exact hx
    exact (hB i t y x hyt hxt (ht0 y x hyt hxt)).1
  split at h
  · cases h
    intro y x hy hx
    have hyt : y < t.h := by rw [← (hS i t).2.1.1]; exact hy
    have hxt : x < t.w := by rw [← (hS i t).2.1.2]; exact hx
    exact (hB i t y x hyt hxt (ht0 y x hyt hxt)).2.1
  split at h
  · cases h
    intro y x hy hx
    have hyt : y < t.h := by rw [← (hS i t).2.2.1.1]; exact hy
    have hxt : x < t.w := by rw [← (hS i t).2.2.1.2]; exact hx
    exact (hB i t y x hyt hxt (ht0 y x hyt hxt)).2.2.1
  split at h
  · cases h
    intro y x hy hx
    have hyt : y < t.h := by rw [← (hS i t).2.2.2.1]; exact hy
    have hxt : x < t.w := by rw [← (hS i t).2.2.2.2]; exact hx
    exact (hB i t y x hyt hxt (ht0 y x hyt hxt)).2.2.2
  · cases h

/-- C8: for every all-zero input mask, (i) whenever the trimap builder
succeeds (kernel sizes ≥ 1) it produces an all-background trimap (every
pixel 0); and (ii) every successful classical matting run on such a mask,
with solvers satisfying the spec §4.3 shape and background-boundary
contracts, yields an all-zero encoded alpha matte and a foreground layer
whose alpha channel is all zero (no visible computed foreground). -/
theorem allzero_mask_pipeline (mask : Img) (hz : imgAllZeroB mask = true) :
    (∀ e d, (TrimapGenerationService.create_trimap mask e d).isSome = true →
      trimapAllZeroB (TrimapGenerationService.create_trimap mask e d) = true) ∧
    (∀ S tq image e d m alg, S.shapeOk → S.bgZero →
      (ClassicalMattingService.generate_matte S tq (some image) (some mask)
        e d m alg).isOk = true →
      alphaMatteZeroB (ClassicalMattingService.generate_matte S tq (some image)
        (some mask) e d m alg) = true ∧
      foregroundAlphaZeroB (ClassicalMattingService.generate_matte S tq (some image)
        (some mask) e d m alg) = true) := by
  have hzp : ∀ a b, a < mask.h → b < mask.w → mask.px a b = 0 := by
    simp only [imgAllZeroB, List.all_eq_true, List.mem_range, beq_iff_eq] at hz
    intro a b ha hb
    exact hz a ha b hb
  constructor
  · intro e d hs
    rw [Option.isSome_iff_exists] at hs
    obtain ⟨t, ht⟩ := hs
    rw [ht]
    have htz := create_trimap_zero mask hzp e d t ht
    simp only [trimapAllZeroB, List.all_eq_true, List.mem_range, beq_iff_eq]
    intro a ha b hb
    exact htz a b ha hb
  · intro S tq image e d m alg hS hB hok
    cases hrun : ClassicalMattingService.generate_matte S tq (some image)
        (some mask) e d m alg with
    | error er => rw [hrun] at hok; cases hok
    | ok b =>
      obtain ⟨imageR, os, mr, tr, alpha, a2, t2, hre, hmr, htr, hal, hback, hbe⟩ :=
        classical_generate_matte_ok S tq image mask e d m alg b hrun
      subst hbe
      have hmrz : ∀ a b2, a < mr.h → b2 < mr.w → mr.px a b2 = 0 := by
        unfold resampleMaskToWorking at hmr
        split at hmr
        · intro a b2 _ _
          exact cvResizeNearest_zero mask imageR.w imageR.h mr hmr hzp a b2
        · cases hmr
          exact hzp
      have htrz := create_trimap_zero mr hmrz e d tr htr
      have hntz : ∀ a b2, a < (normalizeImg tr).h → b2 < (normalizeImg tr).w →
          (normalizeImg tr).px a b2 = 0 := by
        intro a b2 ha hb2
        show ((tr.px a b2 : Nat) : ℚ) / 255 = 0
        rw [htrz a b2 ha hb2]
        norm_num
      have halz := apply_matting_algorithm_bgZero S hS hB (normalizeImg3 imageR)
        (normalizeImg tr) alg alpha hal hntz
      have hamz : ∀ a0 b2, a0 < (alphaToU8 alpha).h → b2 < (alphaToU8 alpha).w →
          (alphaToU8 alpha).px a0 b2 = 0 := by
        intro a0 b2 ha hb2
        show (Rat.floor (255 * min 1 (max 0 (alpha.px a0 b2)))).toNat = 0
        rw [halz a0 b2 ha hb2]
        decide
      have ha2z : ∀ y x, y < a2.h → x < a2.w → a2.px y x = 0 := by
        by_cases hne : (imageR.h, imageR.w) = os
        · unfold resizeBack at hback
          rw [if_neg (not_not_intro hne)] at hback
          cases hback
          exact hamz
        · obtain ⟨hL, _⟩ := resizeBack_of_ne _ _ _ _ _ _ hne hback
          intro y x _ _
          exact cvResizeLinear_zero (alphaToU8 alpha) os.2 os.1 a2 hL hamz y x
      constructor
      · simp only [alphaMatteZeroB, List.all_eq_true, List.mem_range, beq_iff_eq]
        intro y hy x hx
        exact ha2z y x hy hx
      · simp only [foregroundAlphaZeroB, List.all_eq_true, List.mem_range,
          decide_eq_true_iff]
        intro y hy x hx
        exact halz y x hy hx

/-- Witness for C8: concrete all-zero 2×2 mask with kernel sizes 3 and a
successful concrete classical run with the zero solvers. -/
theorem allzero_mask_pipeline_witness :
    imgAllZeroB zMask = true ∧
    (TrimapGenerationService.create_trimap zMask 3 3).isSome = true ∧
    trimapAllZeroB (TrimapGenerationService.create_trimap zMask 3 3) = true ∧
    (ClassicalMattingService.generate_matte zeroSolvers 0 (some smallImg3)
      (some zMask) 3 3 16 "cf").isOk = true ∧
    (alphaMatteZeroB (ClassicalMattingService.generate_matte zeroSolvers 0
        (some smallImg3) (some zMask) 3 3 16 "cf") = true ∧
      foregroundAlphaZeroB (ClassicalMattingService.generate_matte zeroSolvers 0
        (some smallImg3) (some zMask) 3 3 16 "cf") = true) :=
  ⟨by decide, by decide,
   (allzero_mask_pipeline zMask (by decide)).1 3 3 (by decide),
   by decide,
   (allzero_mask_pipeline zMask (by decide)).2 zeroSolvers 0 smallImg3 3 3 16 "cf"
     zeroSolvers_shapeOk zeroSolvers_bgZero (by decide)⟩

/-- C10: for every prompted-segmentation request whose selection mask has no
nonzero pixel, `segment_with_mask` returns empty segments, an empty
semantic-mask string and an empty colour map.  The result is the same for
EVERY `predict` collaborator (the predictor is universally quantified and
does not occur in the result), which is the shallow-embedding statement of
"the predictor is never invoked": the early return at `sam2.py` lines
207–213 fires before `SAM2ImagePredictor` is even constructed. -/
theorem segment_with_mask_empty (predict : BMask → List BMask × List ℚ)
    (pilResize : Img → Nat → Nat → Img) (encodeL : Img → String)
    (encodeRGB : Img3 → String) (elapsed : ℚ) (image : Img3)
    (selection_mask : Img) (hz : imgAllZeroB selection_mask = true) :
    SAM2Service.segment_with_mask predict pilResize encodeL encodeRGB elapsed
      image selection_mask
      = { segments := [], semantic_mask := "", color_map := [],
          processing_time := roundQ3 elapsed } := by
  have hzp : ∀ a b, a < selection_mask.h → b < selection_mask.w →
      selection_mask.px a b = 0 := by
    simp only [imgAllZeroB, List.all_eq_true, List.mem_range, beq_iff_eq] at hz
    exact fun a b ha hb => hz a ha b hb
  have hcond : SAM2Service.anyTrue ⟨selection_mask.h, selection_mask.w,
      fun y x => decide (0 < selection_mask.px y x)⟩ = false := by
    simp only [SAM2Service.anyTrue, List.any_eq_false, List.mem_range]
    intro y hy hx
    rw [List.any_eq_true] at hx
    obtain ⟨x, hxw, hp⟩ := hx
    rw [List.mem_range] at hxw
    rw [hzp y x hy hxw] at hp
    simp at hp
  simp only [SAM2Service.segment_with_mask]
  rw [if_pos hcond]

/-- Witness for C10: concrete 1×1 all-zero selection mask with an arbitrary
dummy predictor. -/
theorem segment_with_mask_empty_witness :
    imgAllZeroB selZero = true ∧
    SAM2Service.segment_with_mask (fun _ => ([], [])) (fun mimg _ _ => mimg)
      (fun _ => "m") (fun _ => "s") 0 smallImg3 selZero
      = { segments := [], semantic_mask := "", color_map := [],
          processing_time := roundQ3 0 } :=
  ⟨by decide,
   segment_with_mask_empty (fun _ => ([], [])) (fun mimg _ _ => mimg)
     (fun _ => "m") (fun _ => "s") 0 smallImg3 selZero (by decide)⟩
